import Mathlib

/-
Verification of the trycat Result library.

The embedding mirrors src/trycat.ts (the current revision) and, where a claim
concerns it, the historical revision preserved at src/unnamed/part_005
(definitions suffixed V0).

Modelling choices, stated once:
  - JavaScript object identity is made explicit: every Ok / Err instance
    carries an allocation id (oid). Construction runs in a state-passing
    computation whose first state component is the next fresh id, so
    "returns this" (same oid, no allocation) is distinguishable from
    "returns a new instance" (oid equal to the current counter, counter
    bumped).
  - Caller-supplied callbacks are state-passing computations over the same
    state, whose second component is caller-chosen instrumentation (for the
    invocation-count theorems it is a counter that each call bumps). A
    combinator that never invokes its callback leaves that component
    untouched for every possible callback.
  - The source class fields are declared readonly and no method assigns
    them, so instances are modelled as immutable Lean values.
  - A thrown JavaScript value is an Except.error carrying a Fault, which
    records which of the three shapes of payload the source throws.
-/

namespace Trycat

/-- State threaded through every effectful step: the next fresh object id,
paired with caller-chosen instrumentation state. -/
abbrev St (σ : Type) := Nat × σ

/-- A state-passing computation: one JavaScript evaluation step that may
allocate objects and run caller-supplied callbacks. -/
abbrev Eff (σ α : Type) := St σ → α × St σ

/-- An Ok instance: its object identity and its readonly value field
(src/trycat.ts:34-35). -/
structure OkV (T : Type) where
  oid : Nat
  value : T
deriving DecidableEq

/-- An Err instance: its object identity and its readonly error field
(src/trycat.ts:111-112). -/
structure ErrV (E : Type) where
  oid : Nat
  error : E
deriving DecidableEq

/-- The sum type from src/trycat.ts:188. -/
inductive Result (T E : Type) where
  | okR (inst : OkV T)
  | errR (inst : ErrV E)
deriving DecidableEq

/-- Observable payload of a thrown JavaScript value in this library:
an Error object with a message, a raw value thrown as-is, or an Err
instance wrapping a message string (src/trycat.ts:176 throws one). -/
inductive Fault (T : Type) where
  | errorObj (message : String)
  | raw (v : T)
  | errWrapped (message : String)
deriving DecidableEq

/-- Evaluation of a constructor call on Ok: allocates a fresh object id. -/
def newOk {T σ : Type} (v : T) : Eff σ (OkV T) :=
  fun st => (⟨st.1, v⟩, (st.1 + 1, st.2))

/-- Evaluation of a constructor call on Err: allocates a fresh object id. -/
def newErr {E σ : Type} (e : E) : Eff σ (ErrV E) :=
  fun st => (⟨st.1, e⟩, (st.1 + 1, st.2))

/-- The free function ok from src/trycat.ts:190-192. -/
def okFn {T σ : Type} (v : T) : Eff σ (OkV T) := newOk v

/-- The free function err from src/trycat.ts:194-196. -/
def errFn {E σ : Type} (e : E) : Eff σ (ErrV E) := newErr e

/-- Lifts a pure function into a callback with no effects. -/
def pureFn (A B : Type) {σ : Type} (f : A → B) : A → Eff σ B :=
  fun a st => (f a, st)

/-- A callback with a fixed outcome, instrumented so that every invocation
bumps a counter held in the instrumentation state. An Except.error outcome
models the callback throwing that payload. -/
def countingCallback (P A : Type) (outcome : Except P A) :
    Unit → Eff Nat (Except P A) :=
  fun _ st => (outcome, (st.1, st.2 + 1))

/-- Method inspect: Ok calls f with the contained value and returns this
(src/trycat.ts:45-48); Err ignores f and returns this (src/trycat.ts:122-124). -/
def inspect {T E U σ : Type} (r : Result T E) (f : T → Eff σ U) :
    Eff σ (Result T E) :=
  fun st =>
    match r with
    | .okR o => (r, (f o.value st).2)
    | .errR _ => (r, st)

/-- Method inspectErr: Ok ignores f and returns this (src/trycat.ts:50-52);
Err calls f with the contained error and returns this (src/trycat.ts:126-129). -/
def inspectErr {T E U σ : Type} (r : Result T E) (f : E → Eff σ U) :
    Eff σ (Result T E) :=
  fun st =>
    match r with
    | .okR _ => (r, st)
    | .errR o => (r, (f o.error st).2)

/-- Method map: Ok returns a newly constructed Ok of mapper(value)
(src/trycat.ts:54-56); Err returns this (src/trycat.ts:131-133). -/
def map {T E T2 σ : Type} (r : Result T E) (mapper : T → Eff σ T2) :
    Eff σ (Result T2 E) :=
  fun st =>
    match r with
    | .okR o =>
        let p := mapper o.value st
        let q := newOk p.1 p.2
        (Result.okR q.1, q.2)
    | .errR o => (Result.errR o, st)

/-- Method mapErr: Ok returns this (src/trycat.ts:66-68); Err returns a newly
constructed Err of mapper(error) (src/trycat.ts:143-145). -/
def mapErr {T E E2 σ : Type} (r : Result T E) (mapper : E → Eff σ E2) :
    Eff σ (Result T E2) :=
  fun st =>
    match r with
    | .okR o => (Result.okR o, st)
    | .errR o =>
        let p := mapper o.error st
        let q := newErr p.1 p.2
        (Result.errR q.1, q.2)

/-- Method or: Ok returns this (src/trycat.ts:70-72); Err returns the given
result (src/trycat.ts:147-149). -/
def orRes {T E E2 : Type} (r : Result T E) (other : Result T E2) : Result T E2 :=
  match r with
  | .okR o => Result.okR o
  | .errR _ => other

/-- Method orElse: Ok returns this (src/trycat.ts:74-76); Err returns
op(error) (src/trycat.ts:151-153). -/
def orElseRes {T E E2 σ : Type} (r : Result T E)
    (op : E → Eff σ (Result T E2)) : Eff σ (Result T E2) :=
  fun st =>
    match r with
    | .okR o => (Result.okR o, st)
    | .errR o => op o.error st

/-- Method and: Ok returns the given result (src/trycat.ts:78-80); Err
returns this (src/trycat.ts:155-157). -/
def andRes {T E T2 : Type} (r : Result T E) (other : Result T2 E) : Result T2 E :=
  match r with
  | .okR _ => other
  | .errR o => Result.errR o

/-- Method andThen: Ok returns op(value) (src/trycat.ts:82-84); Err returns
this (src/trycat.ts:159-161). -/
def andThen {T E T2 σ : Type} (r : Result T E)
    (op : T → Eff σ (Result T2 E)) : Eff σ (Result T2 E) :=
  fun st =>
    match r with
    | .okR o => op o.value st
    | .errR o => (Result.errR o, st)

/-- Method unwrap: Ok returns the value (src/trycat.ts:86-88); Err throws a
new Error with the fixed message (src/trycat.ts:163-165). -/
def unwrap {T E : Type} (r : Result T E) : Except (Fault T) T :=
  match r with
  | .okR o => Except.ok o.value
  | .errR _ => Except.error (Fault.errorObj "Attempted to unwrap an Err value.")

/-- Method unwrapErr: Ok throws its own value raw (src/trycat.ts:102-104);
Err returns the error (src/trycat.ts:179-181). -/
def unwrapErr {T E : Type} (r : Result T E) : Except (Fault T) E :=
  match r with
  | .okR o => Except.error (Fault.raw o.value)
  | .errR o => Except.ok o.error

/-- Method expect: Ok returns the value (src/trycat.ts:98-100); Err throws a
new Err instance wrapping the message (src/trycat.ts:175-177). -/
def expect {T E : Type} (r : Result T E) (message : String) : Except (Fault T) T :=
  match r with
  | .okR o => Except.ok o.value
  | .errR _ => Except.error (Fault.errWrapped message)

/-- Method expectErr: Ok throws a new Error whose message is exactly the
given msg (src/trycat.ts:106-108); Err returns the error (src/trycat.ts:183-185). -/
def expectErr {T E : Type} (r : Result T E) (msg : String) : Except (Fault T) E :=
  match r with
  | .okR _ => Except.error (Fault.errorObj msg)
  | .errR o => Except.ok o.error

/-- The function trys from src/trycat.ts:198-204: invoke fn; wrap a normal
return in ok, a thrown payload in err. -/
def trys {T P σ : Type} (fn : Unit → Eff σ (Except P T)) :
    Eff σ (Result T P) :=
  fun st =>
    match fn () st with
    | (Except.ok v, st1) =>
        let q := okFn v st1
        (Result.okR q.1, q.2)
    | (Except.error e, st1) =>
        let q := errFn e st1
        (Result.errR q.1, q.2)

/-- A settled promise: its eventual fulfillment value or rejection reason. -/
inductive JSPromise (T P : Type) where
  | fulfilled (v : T)
  | rejected (reason : P)
deriving DecidableEq

/-- Promise.then with one handler: runs the handler on fulfillment (a thrown
payload rejects the derived promise); a rejection passes through. -/
def pthen {T U P σ : Type} (p : JSPromise T P)
    (onFulfilled : T → Eff σ (Except P U)) : Eff σ (JSPromise U P) :=
  fun st =>
    match p with
    | .fulfilled v =>
        match onFulfilled v st with
        | (Except.ok u, st1) => (JSPromise.fulfilled u, st1)
        | (Except.error e, st1) => (JSPromise.rejected e, st1)
    | .rejected r => (JSPromise.rejected r, st)

/-- Promise.catch: runs the handler on rejection (its normal return fulfills
the derived promise); a fulfillment passes through. -/
def pcatch {T P σ : Type} (p : JSPromise T P)
    (onRejected : P → Eff σ (Except P T)) : Eff σ (JSPromise T P) :=
  fun st =>
    match p with
    | .fulfilled _ => (p, st)
    | .rejected r =>
        match onRejected r st with
        | (Except.ok v, st1) => (JSPromise.fulfilled v, st1)
        | (Except.error e, st1) => (JSPromise.rejected e, st1)

/-- The function tryp from src/trycat.ts:206-208: then-handler wraps the
value with ok, catch-handler wraps the reason with err; neither throws. -/
def tryp {T P σ : Type} (p : JSPromise T P) :
    Eff σ (JSPromise (Result T P) P) :=
  fun st =>
    let q := pthen p (fun v st1 =>
      let w := okFn v st1
      (Except.ok (Result.okR w.1), w.2)) st
    pcatch q.1 (fun e st1 =>
      let w := errFn e st1
      (Except.ok (Result.errR w.1), w.2)) q.2

/-- A fragment of JavaScript runtime values, enough to express the falsy
values the historical revision's truthiness tests are sensitive to. -/
inductive JSVal where
  | num (n : Int)
  | str (s : String)
  | bool (b : Bool)
  | nullV
  | undef
deriving DecidableEq

/-- JavaScript truthiness on the modelled fragment: 0, the empty string,
false, null and undefined are falsy; everything else is truthy. -/
def truthy : JSVal → Bool
  | .num n => decide (n ≠ 0)
  | .str s => decide (s ≠ "")
  | .bool b => b
  | .nullV => false
  | .undef => false

/-- The free function ok of the historical revision
(src/unnamed/part_005:327-331): the optional argument is tested for
truthiness, and a falsy argument (a missing one arrives as undefined) is
replaced by undefined before wrapping. -/
def okV0 {σ : Type} (value : JSVal) : Eff σ (OkV JSVal) :=
  if truthy value then newOk value else newOk JSVal.undef

/-- The free function err of the historical revision
(src/unnamed/part_005:333-337), with the same truthiness test. -/
def errV0 {σ : Type} (error : JSVal) : Eff σ (ErrV JSVal) :=
  if truthy error then newErr error else newErr JSVal.undef

/-- The function trys of the historical revision
(src/unnamed/part_005:343-352): a truthy return value retval is wrapped via
ok(retval), a falsy one via the bare call ok() whose missing argument is
undefined; a thrown payload is wrapped via err. -/
def trysV0 {σ : Type} (fn : Unit → Eff σ (Except JSVal JSVal)) :
    Eff σ (Result JSVal JSVal) :=
  fun st =>
    match fn () st with
    | (Except.ok retval, st1) =>
        if truthy retval then
          let q := okV0 retval st1
          (Result.okR q.1, q.2)
        else
          let q := okV0 JSVal.undef st1
          (Result.okR q.1, q.2)
    | (Except.error e, st1) =>
        let q := errV0 e st1
        (Result.errR q.1, q.2)

/-- Method expect of the historical revision's Err class
(src/unnamed/part_005:304-306): throws a new Error whose message is exactly
the given message; its Ok class returns the value (src/unnamed/part_005:220-222). -/
def expectV0 {T E : Type} (r : Result T E) (message : String) :
    Except (Fault T) T :=
  match r with
  | .okR o => Except.ok o.value
  | .errR _ => Except.error (Fault.errorObj message)

end Trycat

namespace Trycat

/-- C1: trys invokes its callback exactly once (the instrumentation counter
moves from c to c + 1 in both outcomes); a normal return of v — any value,
falsy ones included, since v ranges over an arbitrary type — yields an Ok
holding exactly v, and a thrown payload p of any type yields an Err holding
exactly p, with nothing added or stripped. -/
theorem c1_trys_exact (V P : Type) (v : V) (p : P) (n c : Nat) :
    trys (countingCallback P V (Except.ok v)) (n, c)
      = (Result.okR ⟨n, v⟩, (n + 1, c + 1)) ∧
    trys (countingCallback P V (Except.error p)) (n, c)
      = (Result.errR ⟨n, p⟩, (n + 1, c + 1)) :=
  ⟨rfl, rfl⟩

/-- C2: tryp turns a promise fulfilled with v into a promise fulfilled with
Ok(v), and a promise rejected with reason r into a promise fulfilled with
Err(r); for every settled promise p the result is fulfilled, never rejected. -/
theorem c2_tryp_settlement (σ T P : Type) (v : T) (r : P) (n : Nat) (s : σ) :
    tryp (JSPromise.fulfilled v) (n, s)
      = ((JSPromise.fulfilled (Result.okR ⟨n, v⟩) : JSPromise (Result T P) P),
         (n + 1, s)) ∧
    tryp (JSPromise.rejected r) (n, s)
      = ((JSPromise.fulfilled (Result.errR ⟨n, r⟩) : JSPromise (Result T P) P),
         (n + 1, s)) ∧
    ∀ p : JSPromise T P, ∃ res st2,
      tryp p (n, s) = (JSPromise.fulfilled res, st2) := by
  refine ⟨rfl, rfl, ?_⟩
  intro p
  cases p with
  | fulfilled v => exact ⟨_, _, rfl⟩
  | rejected r => exact ⟨_, _, rfl⟩

/-- C3: the claim demands that Ok(v).expectErr(m) throw with message m
followed by a colon, a space and v; the code (src/trycat.ts:106-108) throws
a new Error carrying exactly msg, so at the unit test's own input
(trycat.test.ts:117-121, which expects the appended form) the thrown message
is "mai exists", not the demanded "mai exists: mai". -/
theorem c3_expectErr_drops_value :
    expectErr (Result.okR (⟨0, JSVal.str "mai"⟩ : OkV JSVal) : Result JSVal JSVal)
        "mai exists"
      = Except.error (Fault.errorObj "mai exists") ∧
    "mai exists" ≠ "mai exists" ++ ": " ++ "mai" :=
  ⟨rfl, by decide⟩

/-- C4: Err(e).expect(m) throws a fault carrying exactly the caller-supplied
message m, for every error payload e — e does not appear in the fault. In
the current revision the fault is an Err instance wrapping m
(src/trycat.ts:175-177); in the historical revision it is an Error whose
message is m (src/unnamed/part_005:304-306). Neither appends the payload. -/
theorem c4_expect_message_verbatim (T E : Type) (e : E) (j : Nat) (m : String) :
    expect (Result.errR (⟨j, e⟩ : ErrV E) : Result T E) m
      = Except.error (Fault.errWrapped m) ∧
    expectV0 (Result.errR (⟨j, e⟩ : ErrV E) : Result T E) m
      = Except.error (Fault.errorObj m) :=
  ⟨rfl, rfl⟩

/-- C5: the constructors of src/trycat.ts:190-196 wrap exactly the argument
they are given — v and e range over arbitrary types, so every falsy value is
covered — their only effect is allocating the one fresh instance, they
perform no validation and have no failure mode. -/
theorem c5_constructors_exact (T E σ : Type) (v : T) (e : E) (n : Nat) (s : σ) :
    okFn v (n, s) = ((⟨n, v⟩ : OkV T), (n + 1, s)) ∧
    errFn e (n, s) = ((⟨n, e⟩ : ErrV E), (n + 1, s)) :=
  ⟨rfl, rfl⟩

/-- C6: unwrap on Ok(v) returns v and on Err(e) throws the generic
"Attempted to unwrap an Err value." Error for every e; unwrapErr on Err(e)
returns e and on Ok(v) throws the held value v itself, raw, for every v. -/
theorem c6_unwrap_accessors (T E : Type) (v : T) (e : E) (i j : Nat) :
    unwrap (Result.okR (⟨i, v⟩ : OkV T) : Result T E) = Except.ok v ∧
    unwrap (Result.errR (⟨j, e⟩ : ErrV E) : Result T E)
      = Except.error (Fault.errorObj "Attempted to unwrap an Err value.") ∧
    unwrapErr (Result.errR (⟨j, e⟩ : ErrV E) : Result T E) = Except.ok e ∧
    unwrapErr (Result.okR (⟨i, v⟩ : OkV T) : Result T E)
      = Except.error (Fault.raw v) :=
  ⟨rfl, rfl, rfl, rfl⟩

/-- C7: Ok(v).map(f) constructs a new Ok holding f(v), so unwrapping it
gives f(v); Err(e).map(mf), for every callback mf however effectful, returns
the receiver instance itself (same object id, same payload) with the state
untouched: mf is never invoked and nothing is allocated. -/
theorem c7_map_ok_err (T T2 E σ : Type) (v : T) (f : T → T2) (e : E)
    (i j n : Nat) (s : σ) :
    map (Result.okR ⟨i, v⟩ : Result T E) (pureFn T T2 f) (n, s)
      = (Result.okR ⟨n, f v⟩, (n + 1, s)) ∧
    unwrap ((map (Result.okR ⟨i, v⟩ : Result T E) (pureFn T T2 f) (n, s)).1)
      = Except.ok (f v) ∧
    ∀ mf : T → Eff σ T2,
      map (Result.errR ⟨j, e⟩ : Result T E) mf (n, s)
        = (Result.errR ⟨j, e⟩, (n, s)) :=
  ⟨rfl, rfl, fun _ => rfl⟩

/-- C8: Err(e).andThen(op), for every callback op however effectful, returns
the receiver Err instance itself (same object id j, same payload e) and
leaves the state untouched: op is never invoked and no copy is allocated. -/
theorem c8_err_andThen (T T2 E σ : Type) (e : E) (j n : Nat) (s : σ)
    (op : T → Eff σ (Result T2 E)) :
    andThen (Result.errR ⟨j, e⟩ : Result T E) op (n, s)
      = (Result.errR ⟨j, e⟩, (n, s)) :=
  rfl

/-- C9: across every Result-returning operation of the contract, a call on
Ok(v) or Err(e) leaves the receiver's payload intact — the instance is
immutable, so each equation below exhibits the receiver's exact oid and
payload — and the operation returns either the very same instance (same
oid), a freshly allocated instance (oid equal to the allocation counter n,
counter bumped), or, for the delegating branches of or, orElse, and,
andThen, exactly the argument result. -/
theorem c9_no_mutation (T T2 E E2 U σ : Type) (v : T) (e : E)
    (f : T → T2) (g : E → E2) (obs : T → U) (obsE : E → U)
    (other : Result T E2) (other2 : Result T2 E) (i j n : Nat) (s : σ) :
    inspect (Result.okR ⟨i, v⟩ : Result T E) (pureFn T U obs) (n, s)
      = (Result.okR ⟨i, v⟩, (n, s)) ∧
    (∀ mf : T → Eff σ U,
      inspect (Result.errR ⟨j, e⟩ : Result T E) mf (n, s)
        = (Result.errR ⟨j, e⟩, (n, s))) ∧
    (∀ mf : E → Eff σ U,
      inspectErr (Result.okR ⟨i, v⟩ : Result T E) mf (n, s)
        = (Result.okR ⟨i, v⟩, (n, s))) ∧
    inspectErr (Result.errR ⟨j, e⟩ : Result T E) (pureFn E U obsE) (n, s)
      = (Result.errR ⟨j, e⟩, (n, s)) ∧
    map (Result.okR ⟨i, v⟩ : Result T E) (pureFn T T2 f) (n, s)
      = (Result.okR ⟨n, f v⟩, (n + 1, s)) ∧
    (∀ mf : T → Eff σ T2,
      map (Result.errR ⟨j, e⟩ : Result T E) mf (n, s)
        = (Result.errR ⟨j, e⟩, (n, s))) ∧
    (∀ mf : E → Eff σ E2,
      mapErr (Result.okR ⟨i, v⟩ : Result T E) mf (n, s)
        = (Result.okR ⟨i, v⟩, (n, s))) ∧
    mapErr (Result.errR ⟨j, e⟩ : Result T E) (pureFn E E2 g) (n, s)
      = (Result.errR ⟨n, g e⟩, (n + 1, s)) ∧
    orRes (Result.okR ⟨i, v⟩ : Result T E) other = Result.okR ⟨i, v⟩ ∧
    orRes (Result.errR ⟨j, e⟩ : Result T E) other = other ∧
    (∀ op : E → Eff σ (Result T E2),
      orElseRes (Result.okR ⟨i, v⟩ : Result T E) op (n, s)
        = (Result.okR ⟨i, v⟩, (n, s))) ∧
    andRes (Result.okR ⟨i, v⟩ : Result T E) other2 = other2 ∧
    andRes (Result.errR ⟨j, e⟩ : Result T E) other2 = Result.errR ⟨j, e⟩ ∧
    (∀ op : T → Eff σ (Result T2 E),
      andThen (Result.errR ⟨j, e⟩ : Result T E) op (n, s)
        = (Result.errR ⟨j, e⟩, (n, s))) :=
  ⟨rfl, fun _ => rfl, fun _ => rfl, rfl, rfl, fun _ => rfl, fun _ => rfl,
   rfl, rfl, rfl, fun _ => rfl, rfl, rfl, fun _ => rfl⟩

/-- C10: in the historical revision, trys applied to a callback that returns
normally with any falsy value yields Ok(undefined) — the unit payload — not
an Ok holding that value, because the success branch tests the return value
for truthiness before wrapping; the callback is still invoked exactly once. -/
theorem c10_trysV0_falsy (v : JSVal) (h : truthy v = false) (n c : Nat) :
    trysV0 (countingCallback JSVal JSVal (Except.ok v)) (n, c)
      = (Result.okR ⟨n, JSVal.undef⟩, (n + 1, c + 1)) := by
  have h2 : truthy JSVal.undef = false := rfl
  simp [trysV0, countingCallback, okV0, h, h2, newOk]

/-- C10 witness: the falsy value 0 drives the theorem at a concrete input. -/
theorem c10_trysV0_falsy_witness :
    truthy (JSVal.num 0) = false ∧
    trysV0 (countingCallback JSVal JSVal (Except.ok (JSVal.num 0))) (0, 0)
      = (Result.okR ⟨0, JSVal.undef⟩, (1, 1)) :=
  ⟨by decide, c10_trysV0_falsy (JSVal.num 0) (by decide) 0 0⟩

end Trycat
